import Mathlib

/-!
Verification of the context-header insertion tool (pre-commit-context-header).

The development shallowly embeds the Python sources:
  * `src/context_headers/config.py`      — comment-style table, size ceiling
  * `src/context_headers/languages/base.py`       — `HeaderStrategy` shared logic
  * `src/context_headers/languages/strategies.py` — per-language insertion indices
  * `src/context_headers/languages/factory.py`    — strategy selection
  * `src/context_headers/core.py`        — per-file processing
  * `context_headers.py`                 — the legacy single-file variant

Strings are modelled by Lean `String`, with helper functions reproducing the
Python string operations used by the code (`strip`, `lower`, `startswith`,
`endswith`, substring membership, `split(pat, 1)`).  File contents are the
line lists produced by `splitlines(keepends=True)`; the I/O guards of
`process_file` (stat, size, decode) are outside the pure model.  Python's
negative list indices, `list.insert` and `del` are modelled exactly,
including their behaviour on negative positions, because `core.py` reaches
them when a strategy returns the `-1` skip sentinel.
-/

/-- Python `str.strip()` on the whitespace characters that occur in the
repository's inputs (space, tab, carriage return, newline). -/
def pyStrip (s : String) : String :=
  String.mk (((s.data.dropWhile Char.isWhitespace).reverse.dropWhile
    Char.isWhitespace).reverse)

/-- Python `str.lower()` (ASCII case folding, which covers every string the
tool compares case-insensitively). -/
def pyLower (s : String) : String :=
  String.mk (s.data.map Char.toLower)

/-- Python `str.startswith(p)`. -/
def pyStartsWith (s p : String) : Bool :=
  p.data.isPrefixOf s.data

/-- Python `str.endswith(p)`. -/
def pyEndsWith (s p : String) : Bool :=
  p.data.isSuffixOf s.data

/-- Python `p in s` (substring membership). -/
def pyContains (s p : String) : Bool :=
  s.data.tails.any (fun t => p.data.isPrefixOf t)

/-- Python `s[n:]` for a non-negative `n`. -/
def pyDrop (s : String) (n : Nat) : String :=
  String.mk (s.data.drop n)

/-- Helper for `split(pat, 1)`: the part of `l` before the first occurrence
of `pat` and the part after it, or `none` when `pat` does not occur. -/
def splitFirstChars (pat : List Char) : List Char → Option (List Char × List Char)
  | [] => if pat.isPrefixOf ([] : List Char) then some ([], []) else none
  | c :: cs =>
    if pat.isPrefixOf (c :: cs) then some ([], (c :: cs).drop pat.length)
    else
      match splitFirstChars pat cs with
      | some (b, a) => some (c :: b, a)
      | none => none

/-- Python `s.split(pat, 1)` returning both halves, or `none` when `pat`
does not occur in `s`. -/
def splitFirst (s pat : String) : Option (String × String) :=
  match splitFirstChars pat.data s.data with
  | some (b, a) => some (String.mk b, String.mk a)
  | none => none

/-! ### `config.py` -/

/-- `config.MAX_FILE_SIZE_BYTES`: the 1 MiB processing ceiling. -/
def MAX_FILE_SIZE_BYTES : Nat := 1024 * 1024

/-- `config.COMMENT_STYLES`: extension key to comment template. -/
def COMMENT_STYLES : List (String × String) :=
  [ (".py", "# File: {}"), (".yaml", "# File: {}"), (".yml", "# File: {}"),
    (".sh", "# File: {}"), (".bash", "# File: {}"), (".zsh", "# File: {}"),
    (".toml", "# File: {}"), (".tf", "# File: {}"),
    (".dockerfile", "# File: {}"), (".rb", "# File: {}"),
    (".pl", "# File: {}"), (".conf", "# File: {}"),
    (".properties", "# File: {}"), (".env", "# File: {}"),
    (".ini", "; File: {}"),
    (".sql", "-- File: {}"),
    (".js", "// File: {}"), (".ts", "// File: {}"), (".jsx", "// File: {}"),
    (".tsx", "// File: {}"), (".css", "/* File: {} */"),
    (".scss", "/* File: {} */"), (".less", "/* File: {} */"),
    (".java", "// File: {}"), (".kt", "// File: {}"), (".rs", "// File: {}"),
    (".go", "// File: {}"), (".c", "// File: {}"), (".cpp", "// File: {}"),
    (".h", "// File: {}"), (".hpp", "// File: {}"), (".cs", "// File: {}"),
    (".swift", "// File: {}"),
    (".html", "<!-- File: {} -->"), (".md", "<!-- File: {} -->"),
    (".xml", "<!-- File: {} -->"), (".vue", "<!-- File: {} -->") ]

/-- `COMMENT_STYLES.get(ext)` followed by factory.py's `if not style` check:
a missing key or an empty template both mean "unsupported". -/
def lookupStyle (ext : String) : Option String :=
  match COMMENT_STYLES.find? (fun p => p.1 = ext) with
  | some p => if p.2 = "" then none else some p.2
  | none => none

/-- Modelled from the spec: the mandatory exclusion list
(`config.ALWAYS_SKIP_FILENAMES`) is absent from this source snapshot; only
`tests/test_config_sync.py` (which imports it), `tests/test_core.py`
(which asserts that `Cargo.lock` and `uv.lock` are never touched) and the
spec's "fixed set of well-known filenames (lockfiles, generated manifests)"
reference it.  The set holds the filenames evidenced by those tests. -/
def ALWAYS_SKIP_FILENAMES : List String :=
  ["Cargo.lock", "uv.lock", "package-lock.json"]

/-! ### `languages/base.py` — `HeaderStrategy` shared behaviour -/

/-- `str.format` for the style templates: replace the first `\x7b\x7d`
placeholder by the path, or leave the template unchanged when it has no
placeholder (matching `test_strategy_no_placeholder`). -/
def formatStyle (style path : String) : String :=
  match splitFirst style "{}" with
  | some (b, a) => b ++ path ++ a
  | none => style

/-- `HeaderStrategy.get_expected_header`: the rendered template plus a
trailing newline.  The path argument stands for `filepath.as_posix()`. -/
def getExpectedHeader (style path : String) : String :=
  formatStyle style path ++ "\n"

/-- The pair derived from a style by `is_header_line`: the template split at
the first placeholder, or `(style, "")` when there is no placeholder. -/
def styleParts (style : String) : String × String :=
  match splitFirst style "{}" with
  | some p => p
  | none => (style, "")

/-- `HeaderStrategy.is_header_line` from `base.py`, with its three guards:
a shebang line is never a header, an empty style never matches, and a style
whose derived pair is all whitespace never matches. -/
def isHeaderLine (style line : String) : Bool :=
  if pyStartsWith line "#!" then false
  else if style = "" then false
  else
    let ps := styleParts style
    if pyStrip ps.1 = "" ∧ pyStrip ps.2 = "" then false
    else pyStartsWith (pyStrip line) (pyStrip ps.1) &&
         pyEndsWith (pyStrip line) (pyStrip ps.2)

/-! ### `languages/strategies.py` — insertion indices

Each function returns an `Int`: a non-negative index, or `-1` for the skip
sentinel. -/

/-- `ShebangStrategy.get_insertion_index`. -/
def shebangIndex (lines : List String) : Int :=
  match lines with
  | [] => 0
  | l0 :: _ => if pyStartsWith l0 "#!" then 1 else 0

/-- One iteration test of `DockerfileStrategy`'s directive loop: the line
(already stripped) is a `# key=value` parser directive with a key among
syntax/escape/check, case-insensitively and tolerating spaces. -/
def isDockerDirective (line : String) : Bool :=
  let t := pyStrip line
  if pyStartsWith t "#" then
    let content := pyLower (pyStrip (pyDrop t 1))
    let key := String.mk (content.data.takeWhile (fun c => c ≠ '='))
    let sep := content.data.contains '='
    sep && (decide (pyStrip key ∈ (["syntax", "escape", "check"] : List String)))
  else false

/-- The number of leading parser-directive lines, i.e. how far the `while`
loop of `DockerfileStrategy.get_insertion_index` advances. -/
def dockerDirectiveCount : List String → Nat
  | [] => 0
  | l :: ls => if isDockerDirective l then dockerDirectiveCount ls + 1 else 0

/-- `DockerfileStrategy.get_insertion_index`: the shebang index plus the
run of parser directives that follows it. -/
def dockerfileIndex (lines : List String) : Int :=
  let start := (shebangIndex lines).toNat
  ((start + dockerDirectiveCount (lines.drop start) : Nat) : Int)

/-- The PEP 263 approximation used by `PythonStrategy`: a stripped line that
starts with `#`, contains `coding`, and contains `=` or `:`. -/
def isCodingCookie (line : String) : Bool :=
  let t := pyStrip line
  pyStartsWith t "#" && pyContains t "coding" &&
    (pyContains t "=" || pyContains t ":")

/-- `PythonStrategy.get_insertion_index`: the shebang index, or one past the
first encoding cookie found among the first `min(len, 2)` lines from that
index on. -/
def pythonIndex (lines : List String) : Int :=
  let idx := (shebangIndex lines).toNat
  let bound := min lines.length 2
  match (List.range' idx (bound - idx)).find?
      (fun i => isCodingCookie (lines.getD i "")) with
  | some i => ((i + 1 : Nat) : Int)
  | none => (idx : Int)

/-- `DeclarationStrategy.get_insertion_index` (named `XmlStrategy` by
`factory.py`): skips XML declarations, doctypes, `<%@` directives (looking
up to 20 lines for the closing `>`), CSS `@charset` (up to 5 lines for the
closing `;`) and single-line Razor `@page` directives; `-1` when the
declaration does not close within the bound. -/
def declarationIndex (lines : List String) : Int :=
  match lines with
  | [] => 0
  | l0 :: _ =>
    let first := pyStrip l0
    let lower := pyLower first
    let isTagDecl := pyStartsWith first "<?xml" || pyStartsWith lower "<!doctype" ||
      pyStartsWith first "<%@"
    let isCssDecl := pyStartsWith lower "@charset"
    let isRazorDecl := pyStartsWith lower "@page"
    if isTagDecl then
      if pyContains first ">" then 1
      else
        match (List.range' 1 (min lines.length 20 - 1)).find?
            (fun i => pyContains (lines.getD i "") ">") with
        | some i => ((i + 1 : Nat) : Int)
        | none => -1
    else if isCssDecl then
      if pyContains first ";" then 1
      else
        match (List.range' 1 (min lines.length 5 - 1)).find?
            (fun i => pyContains (lines.getD i "") ";") with
        | some i => ((i + 1 : Nat) : Int)
        | none => -1
    else if isRazorDecl then 1
    else 0

/-- `PhpStrategy.get_insertion_index`: one past an opening `<?` tag found at
the shebang index, `-1` when that tag is an XML declaration, closes on the
same line, or when no opening tag is present at all. -/
def phpIndex (lines : List String) : Int :=
  let idx := (shebangIndex lines).toNat
  if idx < lines.length then
    let t := pyStrip (lines.getD idx "")
    if pyStartsWith t "<?" then
      if pyStartsWith (pyLower t) "<?xml" then -1
      else if pyContains t "?>" then -1
      else ((idx + 1 : Nat) : Int)
    else -1
  else -1

/-- `FrontmatterStrategy.get_insertion_index`: one past the closing fence
when line 0 is the fence and a later line closes it.  When the fence never
closes the source falls through to `return 0` (its own test
`test_frontmatter_strategy_unclosed` expects `-1` instead). -/
def frontmatterIndex (lines : List String) : Int :=
  match lines with
  | [] => 0
  | l0 :: _ =>
    if pyStrip l0 = "---" then
      match (List.range' 1 (lines.length - 1)).find?
          (fun i => pyStrip (lines.getD i "") = "---") with
      | some i => ((i + 1 : Nat) : Int)
      | none => 0
    else 0

/-- The concrete strategy classes of `strategies.py`. -/
inductive Strategy where
  | shebang
  | dockerfile
  | python
  | declaration
  | php
  | frontmatter
deriving DecidableEq

/-- Dispatch of `get_insertion_index` over the strategy classes. -/
def getInsertionIndex : Strategy → List String → Int
  | .shebang, lines => shebangIndex lines
  | .dockerfile, lines => dockerfileIndex lines
  | .python, lines => pythonIndex lines
  | .declaration, lines => declarationIndex lines
  | .php, lines => phpIndex lines
  | .frontmatter, lines => frontmatterIndex lines

/-! ### `languages/factory.py` — strategy selection -/

/-- `factory.PYTHON_EXTS`. -/
def PYTHON_EXTS : List String := [".py", ".pyi", ".pyw", ".pyx"]

/-- `factory.PHP_EXTS`. -/
def PHP_EXTS : List String := [".php", ".phtml", ".php3", ".php4", ".phps"]

/-- `factory.FRONTMATTER_EXTS`. -/
def FRONTMATTER_EXTS : List String := [".astro", ".md", ".markdown"]

/-- `factory.XML_EXTS`. -/
def XML_EXTS : List String :=
  [".xml", ".html", ".htm", ".xhtml", ".jhtml", ".vue", ".svelte", ".aspx",
   ".cshtml", ".jsp"]

/-- `pathlib.PurePath.suffix` of a base name: the final dotted extension,
empty when the only dot leads the name (a dotfile) or ends it. -/
def pathSuffixOf (name : String) : String :=
  let l := name.data
  match ((List.range l.length).filter (fun i => l.getD i ' ' = '.')).getLast? with
  | some i => if 0 < i ∧ i < l.length - 1 then String.mk (l.drop i) else ""
  | none => ""

/-- The key computation at the top of `get_strategy_for_file`: Dockerfile
names (case-insensitive, with optional variant after a dot) map to
`.dockerfile`; otherwise the lowercase extension, or the whole name for an
extensionless dotfile. -/
def computeExt (name : String) : String :=
  let nameLower := pyLower name
  if nameLower = "dockerfile" ∨ pyStartsWith nameLower "dockerfile." then
    ".dockerfile"
  else
    let e := pyLower (pathSuffixOf name)
    if e = "" ∧ pyStartsWith name "." then name else e

/-- `factory.get_strategy_for_file` on the file's base name, returning the
strategy together with its comment style.  `factory.py` dispatches
`XML_EXTS` to a class it imports as `XmlStrategy`; that name does not exist
in `strategies.py` in this snapshot, and per the spec's "markup/declaration
set maps to the Declaration-skipping variant" (and the class docstring
"Used for XML, HTML, CSS, Razor, and ASP/JSP") it is modelled as the
Declaration strategy. -/
def getStrategyForFile (name : String) : Option (Strategy × String) :=
  let ext := computeExt name
  match lookupStyle ext with
  | none => none
  | some style =>
    if ext ∈ PYTHON_EXTS then some (.python, style)
    else if ext ∈ PHP_EXTS then some (.php, style)
    else if ext ∈ FRONTMATTER_EXTS then some (.frontmatter, style)
    else if ext ∈ XML_EXTS then some (.declaration, style)
    else some (.shebang, style)

/-! ### `core.py` — per-file processing

Python list primitives with signed indices, as used by `process_file` once
a sentinel `-1` slips through `min(insert_idx, len(lines))`. -/

/-- Python `l[i]` with signed index (total: out-of-range reads default to
`""`; `process_file` only ever reads indices in `[-1, len]`). -/
def pyListGet (l : List String) (i : Int) : String :=
  if i < 0 then l.getD ((l.length : Int) + i).toNat ""
  else l.getD i.toNat ""

/-- Python `l.insert(i, x)` with signed index: clamp negative indices to
`max(len + i, 0)` and positive ones to `len`. -/
def pyInsert (l : List String) (i : Int) (x : String) : List String :=
  let j : Nat := if i < 0 then ((l.length : Int) + i).toNat else min i.toNat l.length
  List.insertIdx j x l

/-- Python `l[i] = x` with signed index. -/
def pySet (l : List String) (i : Int) (x : String) : List String :=
  let j : Nat := if i < 0 then ((l.length : Int) + i).toNat else i.toNat
  l.set j x

/-- Python `del l[i]` with signed index. -/
def pyDelete (l : List String) (i : Int) : List String :=
  let j : Nat := if i < 0 then ((l.length : Int) + i).toNat else i.toNat
  l.eraseIdx j

/-- The newline guard of `process_file`: append `\n` to the final line when
it lacks one. -/
def fixTrailingNewline (lines : List String) : List String :=
  match lines.getLast? with
  | none => lines
  | some last =>
    if pyEndsWith last "\n" then lines
    else lines.set (lines.length - 1) (last ++ "\n")

/-- The tri-state header classification of `core.process_file`. -/
inductive HeaderStatus where
  | correct
  | incorrect
  | missing
deriving DecidableEq

/-- Step 5 of `core.process_file`: compare the line at the (clamped)
insertion index against the expected header — stripped equality yields
`correct`, a shape match yields `incorrect`, anything else `missing`; an
index at or past the end yields `missing`. -/
def headerStatus (style expected : String) (lines : List String) (idx : Int) :
    HeaderStatus :=
  if idx < (lines.length : Int) then
    let cur := pyListGet lines idx
    if pyStrip cur = pyStrip expected then .correct
    else if isHeaderLine style cur then .incorrect
    else .missing
  else .missing

/-- Outcome of one `process_file` call: the reported flag and the content
written back, `none` when the file is not rewritten. -/
structure ProcResult where
  changed : Bool
  written : Option (List String)
deriving DecidableEq

/-- The clamped insertion index of `process_file`: the strategy's index
(computed on the lines as read) bounded above by the line count. -/
def clampedIndex (strat : Strategy) (lines : List String) : Int :=
  min (getInsertionIndex strat lines) ((fixTrailingNewline lines).length : Int)

/-- The header status `process_file` computes for a file. -/
def statusOf (strat : Strategy) (style path : String) (lines : List String) :
    HeaderStatus :=
  headerStatus style (getExpectedHeader style path) (fixTrailingNewline lines)
    (clampedIndex strat lines)

/-- `core.process_file` after the I/O guards, on the line list of the file.
`fixMode` and `removeMode` mirror the CLI flags.  The snapshot's `core.py`
takes only `fix_mode`; the remove branch is Modelled from the spec: "if
status is incorrect or the line exactly equals the expected header, delete
that line and write back; report changed.  If status is missing, nothing to
remove" (`cli.py` and `tests/test_core.py` call
`process_file(f, fix_mode, remove_mode)` but the parameter is absent from
`core.py`).  The modelled removal test runs before the correct-status early
return, since the spec's step 8 must be able to delete a line that exactly
equals the expected header. -/
def processLines (strat : Strategy) (style path : String) (lines0 : List String)
    (fixMode removeMode : Bool) : ProcResult :=
  let expected := getExpectedHeader style path
  let lines := fixTrailingNewline lines0
  let idx := clampedIndex strat lines0
  let status := statusOf strat style path lines0
  if removeMode then
    if status = .incorrect ∨ pyListGet lines idx = expected then
      { changed := true, written := some (pyDelete lines idx) }
    else { changed := false, written := none }
  else if status = .correct then { changed := false, written := none }
  else if fixMode = false then { changed := true, written := none }
  else if status = .incorrect then
    { changed := true, written := some (pySet lines idx expected) }
  else { changed := true, written := some (pyInsert lines idx expected) }

/-- The full pure pipeline for one file: the mandatory-exclusion test on the
exact base name (Modelled from the spec, see `ALWAYS_SKIP_FILENAMES`) runs
before any extension-based logic, then strategy selection, then
`processLines`.  `name` is the file's base name, which also stands for the
path rendered into the header. -/
def processPath (name : String) (lines : List String)
    (fixMode removeMode : Bool) : ProcResult :=
  if name ∈ ALWAYS_SKIP_FILENAMES then { changed := false, written := none }
  else
    match getStrategyForFile name with
    | none => { changed := false, written := none }
    | some (strat, style) => processLines strat style name lines fixMode removeMode

/-! ### `context_headers.py` — the legacy single-file variant -/

/-- The legacy style table of `context_headers.py`: fewer keys, and empty
templates for the markup types. -/
def LEGACY_COMMENT_STYLES : List (String × String) :=
  [ (".py", "# File: {}"), (".yaml", "# File: {}"), (".yml", "# File: {}"),
    (".sh", "# File: {}"), (".toml", "# File: {}"), (".tf", "# File: {}"),
    (".dockerfile", "# File: {}"), (".rb", "# File: {}"), (".pl", "# File: {}"),
    (".js", "// File: {}"), (".ts", "// File: {}"), (".jsx", "// File: {}"),
    (".tsx", "// File: {}"), (".css", "/* File: {} */"),
    (".scss", "/* File: {} */"), (".less", "/* File: {} */"),
    (".java", "// File: {}"), (".kt", "// File: {}"), (".rs", "// File: {}"),
    (".go", "// File: {}"), (".c", "// File: {}"), (".cpp", "// File: {}"),
    (".h", "// File: {}"), (".hpp", "// File: {}"), (".cs", "// File: {}"),
    (".swift", "// File: {}"),
    (".html", ""), (".md", ""), (".xml", ""), (".vue", "") ]

/-- Legacy `get_expected_header`: `None` when the extension has no entry at
all (an empty template is still an entry here). -/
def legacyExpectedHeader (ext path : String) : Option String :=
  match LEGACY_COMMENT_STYLES.find? (fun p => p.1 = ext) with
  | some p => some (formatStyle p.2 path ++ "\n")
  | none => none

/-- Legacy `is_header_line(line, ext)`: no shebang or degenerate-style
guards. -/
def legacyIsHeaderLine (ext line : String) : Bool :=
  match LEGACY_COMMENT_STYLES.find? (fun p => p.1 = ext) with
  | none => false
  | some p =>
    if p.2 = "" then false
    else
      let ps := styleParts p.2
      pyStartsWith (pyStrip line) (pyStrip ps.1) &&
        pyEndsWith (pyStrip line) (pyStrip ps.2)

/-- Legacy `get_insertion_index`: skip a shebang, then test exactly one line
for an encoding cookie. -/
def legacyInsertionIndex (lines : List String) : Nat :=
  match lines with
  | [] => 0
  | _ :: _ =>
    let idx := if pyStartsWith (lines.getD 0 "") "#!" then 1 else 0
    if idx < lines.length then
      if isCodingCookie (lines.getD idx "") then idx + 1 else idx
    else idx

/-- Legacy `process_file` after the I/O guards: note its explicit
`if not lines: return False` empty-file guard, absent from `core.py`. -/
def legacyProcessLines (name : String) (lines0 : List String) (fixMode : Bool) :
    ProcResult :=
  let ext := if name = "Dockerfile" then ".dockerfile" else pyLower (pathSuffixOf name)
  match legacyExpectedHeader ext name with
  | none => { changed := false, written := none }
  | some expected =>
    if expected = "" then { changed := false, written := none }
    else if lines0 = [] then { changed := false, written := none }
    else
      let idx0 := legacyInsertionIndex lines0
      let lines := fixTrailingNewline lines0
      let idx : Nat := min idx0 lines.length
      let status :=
        if idx < lines.length then
          let cur := lines.getD idx ""
          if pyStrip cur = pyStrip expected then HeaderStatus.correct
          else if legacyIsHeaderLine ext cur then HeaderStatus.incorrect
          else HeaderStatus.missing
        else HeaderStatus.missing
      if status = .correct then { changed := false, written := none }
      else if fixMode = false then { changed := true, written := none }
      else if status = .incorrect then
        { changed := true, written := some (lines.set idx expected) }
      else { changed := true, written := some (List.insertIdx idx expected lines) }

/-! ### Shared lemmas -/

/-- An expected header is never the empty string: it ends with a newline. -/
theorem getExpectedHeader_ne_empty (style path : String) :
    getExpectedHeader style path ≠ "" := by
  intro h
  have hd := congrArg String.data h
  rw [getExpectedHeader, String.data_append] at hd
  simp at hd

/-! ### Claim theorems -/

/-- C1 (code bug witness evaluation): `PhpStrategy` returns the skip
sentinel on `["<html>\n"]`, yet `core.process_file` has no check for a
negative index — `min(-1, 1) = -1`, Python's `lines[-1]` reads the last
line, the status is `missing`, and fix mode inserts the header via
`lines.insert(-1, ...)`, rewriting the file and reporting a change.  The
repository's own test `test_process_file_skips_unsafe_strategy_return`
expects `False` and an untouched file. -/
theorem php_sentinel_file_modified :
    getInsertionIndex .php ["<html>\n"] = -1 ∧
    processLines .php "// File: {}" "a.php" ["<html>\n"] true false =
      ⟨true, some ["// File: a.php\n", "<html>\n"]⟩ := by
  constructor
  · decide
  · decide

/-- C4 (code bug witness evaluation): `core.process_file` has no
`if not lines` guard, so an empty supported file gets a header inserted in
fix mode (and is reported as needing action in check mode), while the
legacy `context_headers.py` — and the spec — leave the empty file
untouched. -/
theorem empty_file_gets_header :
    processPath "test.py" [] true false = ⟨true, some ["# File: test.py\n"]⟩ ∧
    processPath "test.py" [] false false = ⟨true, none⟩ ∧
    legacyProcessLines "test.py" [] true = ⟨false, none⟩ := by
  refine ⟨?_, ?_, ?_⟩ <;> decide

/-- C5 (code bug witness evaluation): `factory.get_strategy_for_file` has
no branch for the `.dockerfile` key, so Dockerfile names fall through to
the Shebang default instead of the Build-recipe (Dockerfile) strategy that
`tests/languages/test_factory.py` asserts; the other families dispatch as
the claim states. -/
theorem factory_dockerfile_dispatch :
    getStrategyForFile "Dockerfile" = some (.shebang, "# File: {}") ∧
    getStrategyForFile "Dockerfile.dev" = some (.shebang, "# File: {}") ∧
    getStrategyForFile "DOCKERFILE" = some (.shebang, "# File: {}") ∧
    getStrategyForFile "test.py" = some (.python, "# File: {}") ∧
    getStrategyForFile "test.md" = some (.frontmatter, "<!-- File: {} -->") ∧
    getStrategyForFile "test.xml" = some (.declaration, "<!-- File: {} -->") ∧
    getStrategyForFile "test.sh" = some (.shebang, "# File: {}") := by
  refine ⟨?_, ?_, ?_, ?_, ?_, ?_, ?_⟩ <;> decide

/-- C6 (code bug witness evaluation): the Frontmatter strategy returns one
past the closing fence (Scenario E gives 3), but on an unclosed frontmatter
block it falls through to `return 0` instead of the `-1` skip sentinel that
the claim, the spec and the repository's own test
`test_frontmatter_strategy_unclosed` require. -/
theorem frontmatter_fence_indices :
    getInsertionIndex .frontmatter ["---\n", "title: x\n", "---\n", "body\n"] = 3 ∧
    getInsertionIndex .frontmatter
      ["---\n", "title: unclosed\n", "description: dangerous\n"] = 0 := by
  constructor
  · decide
  · decide

/-- C8 (code bug witness evaluation): fix mode is not idempotent.  For the
file `encoding.py` the inserted header `# File: encoding.py` itself matches
the loose PEP 263 approximation of `PythonStrategy` (it starts with `#`,
contains `coding` inside `encoding`, and contains `:`), so the second fix
run skips past the header and inserts a duplicate, reporting a change. -/
theorem fix_mode_second_run_changes :
    processPath "encoding.py" ["x = 1\n"] true false =
      ⟨true, some ["# File: encoding.py\n", "x = 1\n"]⟩ ∧
    processPath "encoding.py" ["# File: encoding.py\n", "x = 1\n"] true false =
      ⟨true, some ["# File: encoding.py\n", "# File: encoding.py\n", "x = 1\n"]⟩ := by
  constructor
  · decide
  · decide

/-- C3: a file whose exact base name is in the mandatory exclusion set is
left unchanged and unwritten in every mode, before any extension logic
runs. -/
theorem mandatory_exclusion_unchanged (name : String)
    (h : name ∈ ALWAYS_SKIP_FILENAMES) (lines : List String) (fm rm : Bool) :
    processPath name lines fm rm = ⟨false, none⟩ := by
  unfold processPath
  rw [if_pos h]

/-- Witness for C3 at `Cargo.lock` (whose `.lock` suffix the selector would
otherwise consider) in fix mode. -/
theorem mandatory_exclusion_unchanged_witness :
    "Cargo.lock" ∈ ALWAYS_SKIP_FILENAMES ∧
    processPath "Cargo.lock" ["[package]\n"] true false = ⟨false, none⟩ :=
  ⟨by decide, mandatory_exclusion_unchanged "Cargo.lock" (by decide) _ _ _⟩

/-- C7 counterexample: the claim says the status is `correct` exactly when
the line is an exact match of the expected header, but `core.process_file`
compares both sides after `strip()`: the line `"  # File: a.py\n"` is not
an exact match of `"# File: a.py\n"` yet is classified `correct` and the
file is reported unchanged without a write. -/
theorem header_status_exact_cx :
    headerStatus "# File: {}" "# File: a.py\n" ["  # File: a.py\n", "x\n"] 0 =
      .correct ∧
    ("  # File: a.py\n" : String) ≠ "# File: a.py\n" ∧
    processLines .python "# File: {}" "a.py" ["  # File: a.py\n", "x\n"] true false =
      ⟨false, none⟩ := by
  refine ⟨?_, ?_, ?_⟩ <;> decide

/-- C7 as amended: within range, the status is `correct` exactly when the
line equals the expected header after stripping surrounding whitespace on
both sides; `incorrect` exactly when the stripped forms differ but the line
matches the style's header shape; `missing` otherwise; and a `correct`
status makes `process_file` report unchanged without writing (in the
non-remove modes). -/
theorem header_status_tristate (style expected : String) (lines : List String)
    (idx : Int) (h : idx < (lines.length : Int)) :
    (headerStatus style expected lines idx = .correct ↔
      pyStrip (pyListGet lines idx) = pyStrip expected) ∧
    (headerStatus style expected lines idx = .incorrect ↔
      pyStrip (pyListGet lines idx) ≠ pyStrip expected ∧
      isHeaderLine style (pyListGet lines idx) = true) ∧
    (headerStatus style expected lines idx = .missing ↔
      pyStrip (pyListGet lines idx) ≠ pyStrip expected ∧
      isHeaderLine style (pyListGet lines idx) = false) ∧
    (∀ strat path lines0 fm,
      statusOf strat style path lines0 = .correct →
      processLines strat style path lines0 fm false = ⟨false, none⟩) := by
  refine ⟨?_, ?_, ?_, ?_⟩
  · simp only [headerStatus]
    rw [if_pos h]
    split_ifs with h1 h2 <;> simp [*]
  · simp only [headerStatus]
    rw [if_pos h]
    split_ifs with h1 h2 <;> simp [*]
  · simp only [headerStatus]
    rw [if_pos h]
    split_ifs with h1 h2 <;> simp [*]
  · intro strat path lines0 fm hcorrect
    simp [processLines, hcorrect]

/-- Witness for C7's amended theorem: a file whose first line is the exact
header is classified `correct` and processed without a write. -/
theorem header_status_tristate_witness :
    ((0 : Int) < ((["# File: a.py\n"] : List String).length : Int)) ∧
    (headerStatus "# File: {}" "# File: a.py\n" ["# File: a.py\n"] 0 = .correct ↔
      pyStrip (pyListGet ["# File: a.py\n"] 0) = pyStrip "# File: a.py\n") ∧
    statusOf .python "# File: {}" "a.py" ["# File: a.py\n"] = .correct ∧
    processLines .python "# File: {}" "a.py" ["# File: a.py\n"] true false =
      ⟨false, none⟩ :=
  ⟨by decide,
   (header_status_tristate "# File: {}" "# File: a.py\n" _ 0 (by decide)).1,
   by decide,
   (header_status_tristate "# File: {}" "# File: a.py\n" ["# File: a.py\n"] 0
     (by decide)).2.2.2 .python "a.py" ["# File: a.py\n"] true (by decide)⟩

/-- C2 (remove mode, Modelled from the spec — see `processLines`): in
remove mode, when the status is `incorrect` or the line at the insertion
index exactly equals the expected header, that line is deleted, the file is
written back and the call reports changed; when the status is `missing`
nothing is removed and the call reports unchanged. -/
theorem remove_mode_behaviour (strat : Strategy) (style path : String)
    (lines : List String) (fm : Bool) :
    (statusOf strat style path lines = .incorrect ∨
        pyListGet (fixTrailingNewline lines) (clampedIndex strat lines) =
          getExpectedHeader style path →
      processLines strat style path lines fm true =
        ⟨true, some (pyDelete (fixTrailingNewline lines)
          (clampedIndex strat lines))⟩) ∧
    (statusOf strat style path lines = .missing →
      processLines strat style path lines fm true = ⟨false, none⟩) := by
  constructor
  · intro h
    simp only [processLines]
    rw [if_pos trivial, if_pos h]
  · intro h
    have hne : pyListGet (fixTrailingNewline lines) (clampedIndex strat lines) ≠
        getExpectedHeader style path := by
      intro he
      by_cases hlt : clampedIndex strat lines <
          ((fixTrailingNewline lines).length : Int)
      · have hc : statusOf strat style path lines = .correct := by
          simp only [statusOf, headerStatus]
          rw [if_pos hlt, he, if_pos rfl]
        rw [hc] at h
        exact absurd h (by decide)
      · have hidx : clampedIndex strat lines =
            ((fixTrailingNewline lines).length : Int) := by
          refine le_antisymm ?_ (not_lt.1 hlt)
          unfold clampedIndex
          exact min_le_right _ _
        rw [hidx] at he
        have hz : pyListGet (fixTrailingNewline lines)
            ((fixTrailingNewline lines).length : Int) = "" := by
          have hnn : ¬(((fixTrailingNewline lines).length : Int) < 0) :=
            not_lt.2 (Int.natCast_nonneg _)
          simp only [pyListGet, if_neg hnn, Int.toNat_natCast]
          exact List.getD_eq_default _ _ le_rfl
        rw [hz] at he
        exact getExpectedHeader_ne_empty style path he.symm
    have hni : statusOf strat style path lines ≠ .incorrect := by
      rw [h]; decide
    simp only [processLines]
    rw [if_pos trivial, if_neg (not_or.2 ⟨hni, hne⟩)]

/-- Witness for C2: an incorrect header (wrong path) is removed, and a file
without a header is left alone. -/
theorem remove_mode_behaviour_witness :
    statusOf .python "# File: {}" "a.py" ["# File: wrong.py\n", "code\n"] =
      .incorrect ∧
    processLines .python "# File: {}" "a.py" ["# File: wrong.py\n", "code\n"]
      false true =
      ⟨true, some (pyDelete
        (fixTrailingNewline ["# File: wrong.py\n", "code\n"])
        (clampedIndex .python ["# File: wrong.py\n", "code\n"]))⟩ ∧
    pyDelete (fixTrailingNewline ["# File: wrong.py\n", "code\n"])
      (clampedIndex .python ["# File: wrong.py\n", "code\n"]) = ["code\n"] ∧
    statusOf .python "# File: {}" "a.py" ["code\n"] = .missing ∧
    processLines .python "# File: {}" "a.py" ["code\n"] false true =
      ⟨false, none⟩ :=
  ⟨by decide,
   (remove_mode_behaviour .python "# File: {}" "a.py" ["# File: wrong.py\n", "code\n"]
     false).1 (Or.inl (by decide)),
   by decide,
   by decide,
   (remove_mode_behaviour .python "# File: {}" "a.py" ["code\n"] false).2 (by decide)⟩

/-- C9: `is_header_line` never accepts a shebang line, and never accepts
anything when the style's derived pair is all whitespace (which covers the
empty-string template, whose split is the empty pair). -/
theorem header_line_safety (style line : String)
    (h : pyStartsWith line "#!" = true ∨
      (pyStrip (styleParts style).1 = "" ∧ pyStrip (styleParts style).2 = "")) :
    isHeaderLine style line = false := by
  simp only [isHeaderLine]
  rcases h with h | h
  · rw [if_pos h]
  · by_cases hs : pyStartsWith line "#!" = true
    · rw [if_pos hs]
    · rw [if_neg hs]
      by_cases he : style = ""
      · rw [if_pos he]
      · rw [if_neg he, if_pos h]

/-- Witness for C9: a shebang line under the Python style, and an arbitrary
line under the degenerate bare-placeholder style. -/
theorem header_line_safety_witness :
    isHeaderLine "# File: {}" "#!/bin/sh\n" = false ∧
    isHeaderLine "{}" "any line content\n" = false :=
  ⟨header_line_safety "# File: {}" "#!/bin/sh\n" (Or.inl (by decide)),
   header_line_safety "{}" "any line content\n" (Or.inr (by decide))⟩

/-- The extensions that appear in the factory's dispatch sets without an
entry in `COMMENT_STYLES`. -/
def UNSTYLED_DISPATCH_EXTS : List String :=
  [".php", ".phtml", ".php3", ".php4", ".phps", ".pyi", ".pyw", ".pyx",
   ".htm", ".xhtml", ".jhtml", ".svelte", ".aspx", ".cshtml", ".jsp",
   ".astro", ".markdown"]

/-- C10: every dispatch-set extension without a style-table entry makes the
selector return `none` and the processor report unchanged for any file
whose computed key is that extension; consequently the PHP (Tag-opening)
strategy is unreachable through the selector for every file name. -/
theorem unstyled_exts_unsupported :
    (∀ ext ∈ UNSTYLED_DISPATCH_EXTS, lookupStyle ext = none) ∧
    (∀ name, computeExt name ∈ UNSTYLED_DISPATCH_EXTS →
      getStrategyForFile name = none ∧
      ∀ lines fm rm, processPath name lines fm rm = ⟨false, none⟩) ∧
    (∀ name strat style, getStrategyForFile name = some (strat, style) →
      strat ≠ .php) := by
  have hall : ∀ e ∈ UNSTYLED_DISPATCH_EXTS, lookupStyle e = none := by decide
  refine ⟨hall, ?_, ?_⟩
  · intro name hmem
    have hnone : getStrategyForFile name = none := by
      simp only [getStrategyForFile]
      rw [hall _ hmem]
    refine ⟨hnone, ?_⟩
    intro lines fm rm
    unfold processPath
    by_cases hskip : name ∈ ALWAYS_SKIP_FILENAMES
    · rw [if_pos hskip]
    · rw [if_neg hskip, hnone]
  · intro name strat style h
    have hphp : ∀ e ∈ PHP_EXTS, lookupStyle e = none := by decide
    simp only [getStrategyForFile] at h
    rcases hl : lookupStyle (computeExt name) with _ | s
    · rw [hl] at h
      exact Option.noConfusion h
    · rw [hl] at h
      split_ifs at h with h1 h2 h3 h4
      · simp only [Option.some.injEq, Prod.mk.injEq] at h
        obtain ⟨h5, -⟩ := h
        subst h5; decide
      · rw [hphp _ h2] at hl
        exact Option.noConfusion hl
      · simp only [Option.some.injEq, Prod.mk.injEq] at h
        obtain ⟨h5, -⟩ := h
        subst h5; decide
      · simp only [Option.some.injEq, Prod.mk.injEq] at h
        obtain ⟨h5, -⟩ := h
        subst h5; decide
      · simp only [Option.some.injEq, Prod.mk.injEq] at h
        obtain ⟨h5, -⟩ := h
        subst h5; decide

/-- Witness for C10 at `.php` and the file name `test.php`. -/
theorem unstyled_exts_unsupported_witness :
    lookupStyle ".php" = none ∧
    getStrategyForFile "test.php" = none ∧
    processPath "test.php" ["<?php\n", "echo 1;\n"] true false =
      ⟨false, none⟩ :=
  ⟨unstyled_exts_unsupported.1 ".php" (by decide),
   (unstyled_exts_unsupported.2.1 "test.php" (by decide)).1,
   (unstyled_exts_unsupported.2.1 "test.php" (by decide)).2
     ["<?php\n", "echo 1;\n"] true false⟩
